import Mathlib

/-!
Verification development for the VCNL4200 proximity / ambient-light sensor
driver (file src/adafruit_vcnl4200.py).  The driver is shallowly embedded:
device registers are modelled as pairs of wire bytes, the two-wire bus as a
state holding the register file, a transient fault injector and a transaction
trace, and every accessor of the driver class as an explicit state-passing
function translated line by line from the source.  Python exceptions are
modelled by an error type threaded through an Except value; the OSError
raised by a failed bus transaction, the ValueError raised by setter
validation, and the two distinct RuntimeError messages of the constructor
each get their own constructor.
-/

namespace VCNL4200

/-- One 16-bit device register stored as its two wire bytes.  The device is
little-endian: byte `b0` is transferred first and is the low byte. -/
structure Reg16 where
  b0 : Nat
  b1 : Nat
deriving DecidableEq

/-- Value of a register as read by int.from_bytes(buffer, little). -/
def Reg16.val (r : Reg16) : Nat := r.b0 + 256 * r.b1

/-- Bytes written by struct.pack with format <H for a 16-bit value. -/
def Reg16.ofVal (v : Nat) : Reg16 := ⟨v % 256, v / 256 % 256⟩

/-- Register addresses, source lines 55-67. -/
def _ALS_CONF : Nat := 0x00
def _ALS_THDH : Nat := 0x01
def _ALS_THDL : Nat := 0x02
def _PS_CONF12 : Nat := 0x03
def _PS_CONF3MS : Nat := 0x04
def _PS_CANC_LVL : Nat := 0x05
def _PS_THDL : Nat := 0x06
def _PS_THDH : Nat := 0x07
def _PS_DATA : Nat := 0x08
def _ALS_DATA : Nat := 0x09
def _WHITE_DATA : Nat := 0x0A
def _INT_FLAG : Nat := 0x0D
def _ID : Nat := 0x0E

/-- Interrupt flag masks, source lines 70-75. -/
def _INTFLAG_PROX_UPFLAG : Nat := 0x80
def _INTFLAG_PROX_SPFLAG : Nat := 0x40
def _INTFLAG_ALS_LOW : Nat := 0x20
def _INTFLAG_ALS_HIGH : Nat := 0x10
def _INTFLAG_PROX_CLOSE : Nat := 0x02
def _INTFLAG_PROX_AWAY : Nat := 0x01

/-- Enumeration dictionaries of the source (lines 78-125), kept as
association lists from setting name to raw value in declaration order. -/
def ALS_IT : List (String × Nat) :=
  [("50MS", 0x00), ("100MS", 0x01), ("200MS", 0x02), ("400MS", 0x03)]

def ALS_PERS : List (String × Nat) :=
  [("1", 0x00), ("2", 0x01), ("4", 0x02), ("8", 0x03)]

def PS_IT : List (String × Nat) :=
  [("1T", 0x00), ("2T", 0x01), ("3T", 0x02), ("4T", 0x03), ("8T", 0x04), ("9T", 0x05)]

def PS_PERS : List (String × Nat) :=
  [("1", 0x00), ("2", 0x01), ("3", 0x02), ("4", 0x03)]

def PS_DUTY : List (String × Nat) :=
  [("1_160", 0x00), ("1_320", 0x01), ("1_640", 0x02), ("1_1280", 0x03)]

def PS_INT : List (String × Nat) :=
  [("DISABLE", 0x00), ("CLOSE", 0x01), ("AWAY", 0x02), ("BOTH", 0x03)]

/-- Python dict.values() for the tables above. -/
def dictValues (tbl : List (String × Nat)) : List Nat := tbl.map (fun p => p.2)

/-- Reverse lookup dictionary with default, mirroring
the source idiom of building value-to-key maps and calling get(v, Unknown).
The raw values of every table are distinct, so taking the first match is the
same as the Python dict comprehension that keeps the last. -/
def reverseGet (tbl : List (String × Nat)) (v : Nat) : String :=
  match tbl with
  | [] => "Unknown"
  | p :: rest => if p.2 == v then p.1 else reverseGet rest v

/-- Field masks declared on the class, source lines 165-174. -/
def _PROX_INTERRUPT_MASK : Nat := 0b00000011
def _PROX_SUN_CANCEL_MASK : Nat := 0b00000001
def _PROX_SUNLIGHT_DOUBLE_IMMUNITY_MASK : Nat := 0b00000010
def _PROX_ACTIVE_FORCE_MASK : Nat := 0b00001000
def _PROX_SMART_PERSISTENCE_MASK : Nat := 0b00010000
def _ALS_PERSISTENCE_MASK : Nat := 0b00001100
def _ALS_INTEGRATION_TIME_MASK : Nat := 0b11000000
def _PROX_DUTY_MASK : Nat := 0b11000000
def _PROX_INTEGRATION_TIME_MASK : Nat := 0b00001110
def _PROX_PERSISTENCE_MASK : Nat := 0b00110000

/-- Expected device identity, source line 150. -/
def _DEVICE_ID : Nat := 0x1058

/-- The register file of one simulated device. -/
structure Regs where
  alsConf : Reg16
  alsThdh : Reg16
  alsThdl : Reg16
  psConf12 : Reg16
  psConf3ms : Reg16
  psData : Reg16
  alsData : Reg16
  whiteData : Reg16
  intFlag : Reg16
  devId : Reg16
deriving DecidableEq

def Regs.read (rs : Regs) (addr : Nat) : Reg16 :=
  if addr = _ALS_CONF then rs.alsConf
  else if addr = _ALS_THDH then rs.alsThdh
  else if addr = _ALS_THDL then rs.alsThdl
  else if addr = _PS_CONF12 then rs.psConf12
  else if addr = _PS_CONF3MS then rs.psConf3ms
  else if addr = _PS_DATA then rs.psData
  else if addr = _ALS_DATA then rs.alsData
  else if addr = _WHITE_DATA then rs.whiteData
  else if addr = _INT_FLAG then rs.intFlag
  else if addr = _ID then rs.devId
  else ⟨0, 0⟩

def Regs.write (rs : Regs) (addr : Nat) (r : Reg16) : Regs :=
  if addr = _ALS_CONF then { rs with alsConf := r }
  else if addr = _ALS_THDH then { rs with alsThdh := r }
  else if addr = _ALS_THDL then { rs with alsThdl := r }
  else if addr = _PS_CONF12 then { rs with psConf12 := r }
  else if addr = _PS_CONF3MS then { rs with psConf3ms := r }
  else if addr = _PS_DATA then { rs with psData := r }
  else if addr = _ALS_DATA then { rs with alsData := r }
  else if addr = _WHITE_DATA then { rs with whiteData := r }
  else if addr = _INT_FLAG then { rs with intFlag := r }
  else if addr = _ID then { rs with devId := r }
  else rs

/-- All register bytes are in byte range. -/
def Reg16.Valid (r : Reg16) : Prop := r.b0 < 256 ∧ r.b1 < 256

/-- One bus transaction as seen on the wire. -/
inductive Tx where
  | read (addr len : Nat)
  | write (addr : Nat) (data : List Nat)
deriving DecidableEq

/-- The simulated transport: register file, a single-shot fault injector
(failAfter = some n makes the n-th transaction from now raise OSError and
then clears itself, modelling one transient bus failure), and the
transaction trace. -/
structure Bus where
  regs : Regs
  failAfter : Option Nat
  trace : List Tx
deriving DecidableEq

/-- Python exceptions relevant to the driver: OSError raised by a failed bus
transaction, ValueError raised by setter validation, and the constructor's
two RuntimeErrors (message Device ID mismatch, and message Failed to
initialize wrapping the causing exception). -/
inductive PyErr where
  | osError
  | valueError
  | idMismatch
  | initFailed (cause : PyErr)
deriving DecidableEq

/-- Decidable equality of results, used to settle concrete runs. -/
instance {ε α : Type} [DecidableEq ε] [DecidableEq α] : DecidableEq (Except ε α) :=
  fun x y =>
    match x, y with
    | .ok a, .ok b => if h : a = b then .isTrue (by rw [h]) else .isFalse (by simp [h])
    | .error a, .error b =>
        if h : a = b then .isTrue (by rw [h]) else .isFalse (by simp [h])
    | .ok _, .error _ => .isFalse (by simp)
    | .error _, .ok _ => .isFalse (by simp)

/-- Consume one transaction slot of the fault injector; true means this
transaction raises OSError (and the injector is spent). -/
def busAttempt (b : Bus) : Bool × Bus :=
  match b.failAfter with
  | some 0 => (true, { b with failAfter := none })
  | some (n + 1) => (false, { b with failAfter := some n })
  | none => (false, b)

/-- One-byte addressed read: returns the low byte of the register. -/
def busRead1 (addr : Nat) (b : Bus) : Except PyErr Nat × Bus :=
  match busAttempt b with
  | (true, b2) => (.error .osError, b2)
  | (false, b2) =>
      (.ok (b2.regs.read addr).b0, { b2 with trace := b2.trace ++ [.read addr 1] })

/-- Two-byte addressed read of a full register. -/
def busRead2 (addr : Nat) (b : Bus) : Except PyErr Reg16 × Bus :=
  match busAttempt b with
  | (true, b2) => (.error .osError, b2)
  | (false, b2) =>
      (.ok (b2.regs.read addr), { b2 with trace := b2.trace ++ [.read addr 2] })

/-- One-byte addressed write: updates the low byte of the register, leaving
the high byte unchanged (device model for the one-byte accesses issued by
the bit descriptors, which use register width 1). -/
def busWrite1 (addr : Nat) (x : Nat) (b : Bus) : Except PyErr Unit × Bus :=
  match busAttempt b with
  | (true, b2) => (.error .osError, b2)
  | (false, b2) =>
      (.ok (), { b2 with
        regs := b2.regs.write addr ⟨x, (b2.regs.read addr).b1⟩,
        trace := b2.trace ++ [.write addr [x]] })

/-- Two-byte addressed write of a full register. -/
def busWrite2 (addr : Nat) (r : Reg16) (b : Bus) : Except PyErr Unit × Bus :=
  match busAttempt b with
  | (true, b2) => (.error .osError, b2)
  | (false, b2) =>
      (.ok (), { b2 with
        regs := b2.regs.write addr r,
        trace := b2.trace ++ [.write addr [r.b0, r.b1]] })

/-! Descriptor-based accessors.  RWBits(1, reg, lowest) and RWBit(reg, bit)
with the default register width of one byte perform a one-byte
read-modify-write; the bit mask of a one-bit RWBits field is 1 <<< lowest,
and Python's x & ~mask on a byte value equals x &&& (0xFF ^^^ mask). -/

/-- als_shutdown = RWBits(1, _ALS_CONF, 0), setter (source line 153). -/
def als_shutdown_set (value : Bool) (b : Bus) : Except PyErr Unit × Bus :=
  match busRead1 _ALS_CONF b with
  | (.error e, b2) => (.error e, b2)
  | (.ok reg, b2) =>
      busWrite1 _ALS_CONF
        ((reg &&& (0xFF ^^^ (1 <<< 0))) ||| ((if value then 1 else 0) <<< 0)) b2

/-- als_shutdown getter: extracts the masked bits shifted down. -/
def als_shutdown_get (b : Bus) : Except PyErr Nat × Bus :=
  match busRead1 _ALS_CONF b with
  | (.error e, b2) => (.error e, b2)
  | (.ok reg, b2) => (.ok ((reg &&& (1 <<< 0)) >>> 0), b2)

/-- als_int_en = RWBits(1, _ALS_CONF, 1), setter (source line 161). -/
def als_int_en_set (value : Bool) (b : Bus) : Except PyErr Unit × Bus :=
  match busRead1 _ALS_CONF b with
  | (.error e, b2) => (.error e, b2)
  | (.ok reg, b2) =>
      busWrite1 _ALS_CONF
        ((reg &&& (0xFF ^^^ (1 <<< 1))) ||| ((if value then 1 else 0) <<< 1)) b2

def als_int_en_get (b : Bus) : Except PyErr Nat × Bus :=
  match busRead1 _ALS_CONF b with
  | (.error e, b2) => (.error e, b2)
  | (.ok reg, b2) => (.ok ((reg &&& (1 <<< 1)) >>> 1), b2)

/-- als_int_switch = RWBits(1, _ALS_CONF, 5), setter (source line 162). -/
def als_int_switch_set (value : Bool) (b : Bus) : Except PyErr Unit × Bus :=
  match busRead1 _ALS_CONF b with
  | (.error e, b2) => (.error e, b2)
  | (.ok reg, b2) =>
      busWrite1 _ALS_CONF
        ((reg &&& (0xFF ^^^ (1 <<< 5))) ||| ((if value then 1 else 0) <<< 5)) b2

def als_int_switch_get (b : Bus) : Except PyErr Nat × Bus :=
  match busRead1 _ALS_CONF b with
  | (.error e, b2) => (.error e, b2)
  | (.ok reg, b2) => (.ok ((reg &&& (1 <<< 5)) >>> 5), b2)

/-- prox_shutdown = RWBit(_PS_CONF12, 0), setter (source line 157): RWBit
sets or clears the bit depending on the boolean. -/
def prox_shutdown_set (value : Bool) (b : Bus) : Except PyErr Unit × Bus :=
  match busRead1 _PS_CONF12 b with
  | (.error e, b2) => (.error e, b2)
  | (.ok reg, b2) =>
      busWrite1 _PS_CONF12
        (if value then reg ||| (1 <<< 0) else reg &&& (0xFF ^^^ (1 <<< 0))) b2

/-- prox_shutdown getter: bool of the masked byte. -/
def prox_shutdown_get (b : Bus) : Except PyErr Bool × Bus :=
  match busRead1 _PS_CONF12 b with
  | (.error e, b2) => (.error e, b2)
  | (.ok reg, b2) => (.ok ((reg &&& (1 <<< 0)) != 0), b2)

/-- prox_trigger = RWBit(_PS_CONF3MS, 2), setter (source line 164). -/
def prox_trigger_set (value : Bool) (b : Bus) : Except PyErr Unit × Bus :=
  match busRead1 _PS_CONF3MS b with
  | (.error e, b2) => (.error e, b2)
  | (.ok reg, b2) =>
      busWrite1 _PS_CONF3MS
        (if value then reg ||| (1 <<< 2) else reg &&& (0xFF ^^^ (1 <<< 2))) b2

/-- als_low_threshold = UnaryStruct(_ALS_THDL, format <H), setter: one plain
16-bit little-endian write, no read-modify-write (source line 154). -/
def als_low_threshold_set (value : Nat) (b : Bus) : Except PyErr Unit × Bus :=
  busWrite2 _ALS_THDL (Reg16.ofVal value) b

def als_low_threshold_get (b : Bus) : Except PyErr Nat × Bus :=
  match busRead2 _ALS_THDL b with
  | (.error e, b2) => (.error e, b2)
  | (.ok buf, b2) => (.ok buf.val, b2)

/-- als_high_threshold = UnaryStruct(_ALS_THDH, format <H), setter
(source line 155). -/
def als_high_threshold_set (value : Nat) (b : Bus) : Except PyErr Unit × Bus :=
  busWrite2 _ALS_THDH (Reg16.ofVal value) b

def als_high_threshold_get (b : Bus) : Except PyErr Nat × Bus :=
  match busRead2 _ALS_THDH b with
  | (.error e, b2) => (.error e, b2)
  | (.ok buf, b2) => (.ok buf.val, b2)

/-- proximity = ROUnaryStruct(_PS_DATA, format <H) (source line 158). -/
def proximity_get (b : Bus) : Except PyErr Nat × Bus :=
  match busRead2 _PS_DATA b with
  | (.error e, b2) => (.error e, b2)
  | (.ok buf, b2) => (.ok buf.val, b2)

/-- lux = ROUnaryStruct(_ALS_DATA, format <H) (source line 159). -/
def lux_get (b : Bus) : Except PyErr Nat × Bus :=
  match busRead2 _ALS_DATA b with
  | (.error e, b2) => (.error e, b2)
  | (.ok buf, b2) => (.ok buf.val, b2)

/-- white_light = ROUnaryStruct(_WHITE_DATA, format <H) (source line 160). -/
def white_light_get (b : Bus) : Except PyErr Nat × Bus :=
  match busRead2 _WHITE_DATA b with
  | (.error e, b2) => (.error e, b2)
  | (.ok buf, b2) => (.ok buf.val, b2)

/-! Property accessors.  Each reads its register as two bytes through
_read_register, masks inside one byte of the buffer, and writes both bytes
back through _write_register.  The class also declares
proximity_int_en = RWBits(1, _PS_CONF12, 0) (source line 163, unused by any
method) and prox_hd = RWBit(_PS_CONF12, 11) (source line 156, whose byte
index 11 / 8 + 1 = 2 falls outside the descriptor's two-byte buffer, so any
use raises IndexError); prox_hd therefore has no runnable semantics and only
its field layout is modelled below. -/

/-- prox_interrupt getter (source lines 234-241): reverse lookup of
buffer[1] masked with _PROX_INTERRUPT_MASK, defaulting to Unknown. -/
def prox_interrupt_get (b : Bus) : Except PyErr String × Bus :=
  match busRead2 _PS_CONF12 b with
  | (.error e, b2) => (.error e, b2)
  | (.ok buf, b2) =>
      (.ok (reverseGet PS_INT (buf.b1 &&& _PROX_INTERRUPT_MASK)), b2)

/-- prox_interrupt setter (source lines 243-250): validates the mode against
PS_INT.values() before any bus transaction, then read-modify-writes
buffer[1]. -/
def prox_interrupt_set (mode : Nat) (b : Bus) : Except PyErr Unit × Bus :=
  if mode ∈ dictValues PS_INT then
    match busRead2 _PS_CONF12 b with
    | (.error e, b2) => (.error e, b2)
    | (.ok buf, b2) =>
        busWrite2 _PS_CONF12
          ⟨buf.b0,
           (buf.b1 &&& (0xFF ^^^ _PROX_INTERRUPT_MASK)) |||
             (mode &&& _PROX_INTERRUPT_MASK)⟩ b2
  else (.error .valueError, b)

/-- prox_duty getter (source lines 252-261): bits 6-7 of buffer[0]. -/
def prox_duty_get (b : Bus) : Except PyErr String × Bus :=
  match busRead2 _PS_CONF12 b with
  | (.error e, b2) => (.error e, b2)
  | (.ok buf, b2) =>
      (.ok (reverseGet PS_DUTY ((buf.b0 &&& _PROX_DUTY_MASK) >>> 6)), b2)

/-- prox_duty setter (source lines 263-274). -/
def prox_duty_set (setting : Nat) (b : Bus) : Except PyErr Unit × Bus :=
  if setting ∈ dictValues PS_DUTY then
    match busRead2 _PS_CONF12 b with
    | (.error e, b2) => (.error e, b2)
    | (.ok buf, b2) =>
        busWrite2 _PS_CONF12
          ⟨(buf.b0 &&& (0xFF ^^^ _PROX_DUTY_MASK)) ||| (setting <<< 6), buf.b1⟩ b2
  else (.error .valueError, b)

/-- prox_sun_cancellation getter (source lines 276-282). -/
def prox_sun_cancellation_get (b : Bus) : Except PyErr Bool × Bus :=
  match busRead2 _PS_CONF3MS b with
  | (.error e, b2) => (.error e, b2)
  | (.ok buf, b2) => (.ok ((buf.b0 &&& _PROX_SUN_CANCEL_MASK) != 0), b2)

/-- prox_sun_cancellation setter (source lines 284-294). -/
def prox_sun_cancellation_set (enable : Bool) (b : Bus) : Except PyErr Unit × Bus :=
  match busRead2 _PS_CONF3MS b with
  | (.error e, b2) => (.error e, b2)
  | (.ok buf, b2) =>
      busWrite2 _PS_CONF3MS
        ⟨if enable then buf.b0 ||| _PROX_SUN_CANCEL_MASK
          else buf.b0 &&& (0xFF ^^^ _PROX_SUN_CANCEL_MASK), buf.b1⟩ b2

/-- prox_sunlight_double_immunity getter (source lines 296-302). -/
def prox_sunlight_double_immunity_get (b : Bus) : Except PyErr Bool × Bus :=
  match busRead2 _PS_CONF3MS b with
  | (.error e, b2) => (.error e, b2)
  | (.ok buf, b2) =>
      (.ok ((buf.b0 &&& _PROX_SUNLIGHT_DOUBLE_IMMUNITY_MASK) != 0), b2)

/-- prox_sunlight_double_immunity setter (source lines 304-315). -/
def prox_sunlight_double_immunity_set (enable : Bool) (b : Bus) :
    Except PyErr Unit × Bus :=
  match busRead2 _PS_CONF3MS b with
  | (.error e, b2) => (.error e, b2)
  | (.ok buf, b2) =>
      busWrite2 _PS_CONF3MS
        ⟨if enable then buf.b0 ||| _PROX_SUNLIGHT_DOUBLE_IMMUNITY_MASK
          else buf.b0 &&& (0xFF ^^^ _PROX_SUNLIGHT_DOUBLE_IMMUNITY_MASK), buf.b1⟩ b2

/-- prox_active_force getter (source lines 317-323). -/
def prox_active_force_get (b : Bus) : Except PyErr Bool × Bus :=
  match busRead2 _PS_CONF3MS b with
  | (.error e, b2) => (.error e, b2)
  | (.ok buf, b2) => (.ok ((buf.b0 &&& _PROX_ACTIVE_FORCE_MASK) != 0), b2)

/-- prox_active_force setter (source lines 325-336). -/
def prox_active_force_set (enable : Bool) (b : Bus) : Except PyErr Unit × Bus :=
  match busRead2 _PS_CONF3MS b with
  | (.error e, b2) => (.error e, b2)
  | (.ok buf, b2) =>
      busWrite2 _PS_CONF3MS
        ⟨if enable then buf.b0 ||| _PROX_ACTIVE_FORCE_MASK
          else buf.b0 &&& (0xFF ^^^ _PROX_ACTIVE_FORCE_MASK), buf.b1⟩ b2

/-- prox_smart_persistence getter (source lines 338-344). -/
def prox_smart_persistence_get (b : Bus) : Except PyErr Bool × Bus :=
  match busRead2 _PS_CONF3MS b with
  | (.error e, b2) => (.error e, b2)
  | (.ok buf, b2) => (.ok ((buf.b0 &&& _PROX_SMART_PERSISTENCE_MASK) != 0), b2)

/-- prox_smart_persistence setter (source lines 346-357). -/
def prox_smart_persistence_set (enable : Bool) (b : Bus) : Except PyErr Unit × Bus :=
  match busRead2 _PS_CONF3MS b with
  | (.error e, b2) => (.error e, b2)
  | (.ok buf, b2) =>
      busWrite2 _PS_CONF3MS
        ⟨if enable then buf.b0 ||| _PROX_SMART_PERSISTENCE_MASK
          else buf.b0 &&& (0xFF ^^^ _PROX_SMART_PERSISTENCE_MASK), buf.b1⟩ b2

/-- als_integration_time getter (source lines 359-369): bits 6-7 of
buffer[0]. -/
def als_integration_time_get (b : Bus) : Except PyErr String × Bus :=
  match busRead2 _ALS_CONF b with
  | (.error e, b2) => (.error e, b2)
  | (.ok buf, b2) =>
      (.ok (reverseGet ALS_IT ((buf.b0 &&& _ALS_INTEGRATION_TIME_MASK) >>> 6)), b2)

/-- als_integration_time setter (source lines 371-382). -/
def als_integration_time_set (it : Nat) (b : Bus) : Except PyErr Unit × Bus :=
  if it ∈ dictValues ALS_IT then
    match busRead2 _ALS_CONF b with
    | (.error e, b2) => (.error e, b2)
    | (.ok buf, b2) =>
        busWrite2 _ALS_CONF
          ⟨(buf.b0 &&& (0xFF ^^^ _ALS_INTEGRATION_TIME_MASK)) ||| (it <<< 6),
           buf.b1⟩ b2
  else (.error .valueError, b)

/-- als_persistence getter (source lines 384-393): bits 2-3 of buffer[0]. -/
def als_persistence_get (b : Bus) : Except PyErr String × Bus :=
  match busRead2 _ALS_CONF b with
  | (.error e, b2) => (.error e, b2)
  | (.ok buf, b2) =>
      (.ok (reverseGet ALS_PERS ((buf.b0 &&& _ALS_PERSISTENCE_MASK) >>> 2)), b2)

/-- als_persistence setter (source lines 395-405). -/
def als_persistence_set (pers : Nat) (b : Bus) : Except PyErr Unit × Bus :=
  if pers ∈ dictValues ALS_PERS then
    match busRead2 _ALS_CONF b with
    | (.error e, b2) => (.error e, b2)
    | (.ok buf, b2) =>
        busWrite2 _ALS_CONF
          ⟨(buf.b0 &&& (0xFF ^^^ _ALS_PERSISTENCE_MASK)) ||| (pers <<< 2),
           buf.b1⟩ b2
  else (.error .valueError, b)

/-- prox_integration_time getter (source lines 407-416): bits 1-3 of
buffer[0]. -/
def prox_integration_time_get (b : Bus) : Except PyErr String × Bus :=
  match busRead2 _PS_CONF12 b with
  | (.error e, b2) => (.error e, b2)
  | (.ok buf, b2) =>
      (.ok (reverseGet PS_IT ((buf.b0 &&& _PROX_INTEGRATION_TIME_MASK) >>> 1)), b2)

/-- prox_integration_time setter (source lines 418-429). -/
def prox_integration_time_set (setting : Nat) (b : Bus) : Except PyErr Unit × Bus :=
  if setting ∈ dictValues PS_IT then
    match busRead2 _PS_CONF12 b with
    | (.error e, b2) => (.error e, b2)
    | (.ok buf, b2) =>
        busWrite2 _PS_CONF12
          ⟨(buf.b0 &&& (0xFF ^^^ _PROX_INTEGRATION_TIME_MASK)) ||| (setting <<< 1),
           buf.b1⟩ b2
  else (.error .valueError, b)

/-- prox_persistence getter (source lines 431-440): bits 4-5 of buffer[0]. -/
def prox_persistence_get (b : Bus) : Except PyErr String × Bus :=
  match busRead2 _PS_CONF12 b with
  | (.error e, b2) => (.error e, b2)
  | (.ok buf, b2) =>
      (.ok (reverseGet PS_PERS ((buf.b0 &&& _PROX_PERSISTENCE_MASK) >>> 4)), b2)

/-- prox_persistence setter (source lines 442-453). -/
def prox_persistence_set (setting : Nat) (b : Bus) : Except PyErr Unit × Bus :=
  if setting ∈ dictValues PS_PERS then
    match busRead2 _PS_CONF12 b with
    | (.error e, b2) => (.error e, b2)
    | (.ok buf, b2) =>
        busWrite2 _PS_CONF12
          ⟨(buf.b0 &&& (0xFF ^^^ _PROX_PERSISTENCE_MASK)) ||| (setting <<< 4),
           buf.b1⟩ b2
  else (.error .valueError, b)

/-- set_interrupt (source lines 203-211): writes the ALS interrupt enable
bit and the channel select bit inside try, returning False on OSError and
True on success; any other exception propagates (none can arise here). -/
def set_interrupt (enabled white_channel : Bool) (b : Bus) :
    Except PyErr Bool × Bus :=
  match als_int_en_set enabled b with
  | (.error .osError, b2) => (.ok false, b2)
  | (.error e, b2) => (.error e, b2)
  | (.ok _, b2) =>
      match als_int_switch_set white_channel b2 with
      | (.error .osError, b3) => (.ok false, b3)
      | (.error e, b3) => (.error e, b3)
      | (.ok _, b3) => (.ok true, b3)

/-- trigger_prox (source lines 213-219): sets the active force trigger bit,
returning False on OSError and True on success. -/
def trigger_prox (b : Bus) : Except PyErr Bool × Bus :=
  match prox_trigger_set true b with
  | (.error .osError, b2) => (.ok false, b2)
  | (.error e, b2) => (.error e, b2)
  | (.ok _, b2) => (.ok true, b2)

/-- Identity check loop of the constructor (source lines 178-188): the body
of for underscore in range(2) reads the two identity bytes, breaks when the
little-endian value equals _DEVICE_ID, and otherwise raises immediately, so
the recursive continuation of the loop is never reached; with the fuel
exhausted Python would fall through the loop. -/
def idCheckLoop : Nat → Bus → Except PyErr Unit × Bus
  | 0, b => (.ok (), b)
  | _ + 1, b =>
      match busRead2 _ID b with
      | (.error e, b2) => (.error e, b2)
      | (.ok buf, b2) =>
          if buf.val = _DEVICE_ID then (.ok (), b2)
          else (.error .idMismatch, b2)

/-- Sequencing helper: run one initialization statement and continue with
the rest unless it raised (the value of the statement is discarded, exactly
as the constructor discards the return value of set_interrupt). -/
def andThen (step : Except PyErr α × Bus) (k : Bus → Except PyErr Unit × Bus) :
    Except PyErr Unit × Bus :=
  match step with
  | (.error e, b) => (.error e, b)
  | (.ok _, b) => k b

/-- Body of the constructor's try block (source lines 190-199): the ten
initialization statements in source order with their exact arguments. -/
def initBody (b : Bus) : Except PyErr Unit × Bus :=
  andThen (als_shutdown_set false b) fun b1 =>
  andThen (als_integration_time_set 0x00 b1) fun b2 =>
  andThen (als_persistence_set 0x00 b2) fun b3 =>
  andThen (als_low_threshold_set 0 b3) fun b4 =>
  andThen (als_high_threshold_set 0xFFFF b4) fun b5 =>
  andThen (set_interrupt false false b5) fun b6 =>
  andThen (prox_duty_set 0x00 b6) fun b7 =>
  andThen (prox_shutdown_set false b7) fun b8 =>
  andThen (prox_integration_time_set 0x00 b8) fun b9 =>
  prox_persistence_set 0x00 b9

/-- The constructor (source lines 176-201): identity check with the
two-iteration loop, then the initialization sequence wrapped so that any
exception it raises is re-raised as the RuntimeError with message Failed to
initialize, carrying the cause.  An ok result models the constructor
returning the handle to the caller. -/
def vcnl4200_open (b : Bus) : Except PyErr Unit × Bus :=
  match idCheckLoop 2 b with
  | (.error e, b2) => (.error e, b2)
  | (.ok _, b2) =>
      match initBody b2 with
      | (.error e, b3) => (.error (.initFailed e), b3)
      | (.ok _, b3) => (.ok (), b3)

/-- The six sticky interrupt flags. -/
structure InterruptFlags where
  proxUpflag : Bool
  proxSpflag : Bool
  alsLow : Bool
  alsHigh : Bool
  proxClose : Bool
  proxAway : Bool
deriving DecidableEq

/-- Modelled from the spec: the driver's interrupt_flags accessor is absent
from src/adafruit_vcnl4200.py (only the example program calls it).  Per the
spec it reads the 16-bit interrupt-flag register, uses only its upper 8
bits, and decodes the six independent flags with the _INTFLAG masks that the
source does define. -/
def interrupt_flags (raw : Nat) : InterruptFlags :=
  let high := (raw >>> 8) &&& 0xFF
  { proxUpflag := (high &&& _INTFLAG_PROX_UPFLAG) != 0
    proxSpflag := (high &&& _INTFLAG_PROX_SPFLAG) != 0
    alsLow := (high &&& _INTFLAG_ALS_LOW) != 0
    alsHigh := (high &&& _INTFLAG_ALS_HIGH) != 0
    proxClose := (high &&& _INTFLAG_PROX_CLOSE) != 0
    proxAway := (high &&& _INTFLAG_PROX_AWAY) != 0 }

/-- Static description of one bitfield declared on the driver class: its
register, the bit offset within the 16-bit register (byte 1 fields start at
offset 8), and the bit width. -/
structure FieldSpec where
  name : String
  register : Nat
  offset : Nat
  width : Nat
deriving DecidableEq

/-- Every bitfield declared on the driver class: the RWBit / RWBits
descriptors (source lines 153-164) and the masked fields of the property
accessors (source lines 165-174 with their shift amounts). -/
def vcnlFieldSpecs : List FieldSpec :=
  [⟨"als_shutdown", _ALS_CONF, 0, 1⟩,
   ⟨"_als_int_en", _ALS_CONF, 1, 1⟩,
   ⟨"als_persistence", _ALS_CONF, 2, 2⟩,
   ⟨"_als_int_switch", _ALS_CONF, 5, 1⟩,
   ⟨"als_integration_time", _ALS_CONF, 6, 2⟩,
   ⟨"prox_shutdown", _PS_CONF12, 0, 1⟩,
   ⟨"_proximity_int_en", _PS_CONF12, 0, 1⟩,
   ⟨"prox_integration_time", _PS_CONF12, 1, 3⟩,
   ⟨"prox_persistence", _PS_CONF12, 4, 2⟩,
   ⟨"prox_duty", _PS_CONF12, 6, 2⟩,
   ⟨"prox_interrupt", _PS_CONF12, 8, 2⟩,
   ⟨"prox_hd", _PS_CONF12, 11, 1⟩,
   ⟨"prox_sun_cancellation", _PS_CONF3MS, 0, 1⟩,
   ⟨"prox_sunlight_double_immunity", _PS_CONF3MS, 1, 1⟩,
   ⟨"_prox_trigger", _PS_CONF3MS, 2, 1⟩,
   ⟨"prox_active_force", _PS_CONF3MS, 3, 1⟩,
   ⟨"prox_smart_persistence", _PS_CONF3MS, 4, 1⟩]

/-- Two field specs overlap when they share a register and their bit ranges
intersect. -/
def FieldSpec.overlaps (f g : FieldSpec) : Bool :=
  f.register == g.register &&
    max f.offset g.offset < min (f.offset + f.width) (g.offset + g.width)

/-- Registers written in a trace, in order. -/
def writeAddrs (tr : List Tx) : List Nat :=
  tr.filterMap fun t =>
    match t with
    | .write a _ => some a
    | .read _ _ => none

/-- Number of reads of a given register in a trace. -/
def countReads (addr : Nat) (tr : List Tx) : Nat :=
  (tr.filter fun t =>
    match t with
    | .read a _ => a == addr
    | .write _ _ => false).length

/-- A sample register file with the correct identity and nonzero content in
every configuration register, used by the concrete witnesses. -/
def sampleRegs : Regs :=
  ⟨⟨0xA5, 0x5A⟩, ⟨1, 2⟩, ⟨3, 4⟩, ⟨0x6C, 0xC6⟩, ⟨5, 6⟩, ⟨7, 8⟩, ⟨9, 10⟩,
   ⟨11, 12⟩, ⟨13, 14⟩, ⟨0x58, 0x10⟩⟩

/-- A fault-free bus over the sample register file. -/
def sampleBus : Bus := ⟨sampleRegs, none, []⟩

/-- A bus over the sample register file whose k-th transaction will fail. -/
def faultBus (k : Nat) : Bus := ⟨sampleRegs, some k, []⟩

/-- An all-zero register file with the correct identity. -/
def zeroRegs : Regs :=
  ⟨⟨0, 0⟩, ⟨0, 0⟩, ⟨0, 0⟩, ⟨0, 0⟩, ⟨0, 0⟩, ⟨0, 0⟩, ⟨0, 0⟩, ⟨0, 0⟩, ⟨0, 0⟩,
   ⟨0x58, 0x10⟩⟩

/-- A fault-free device with the correct identity and arbitrary prior
content in every other register, used to state the initialization claim. -/
def deviceBus (a0 a1 p0 p1 : Nat) (th tl c3 pd ad wd fl : Reg16) : Bus :=
  ⟨⟨⟨a0, a1⟩, th, tl, ⟨p0, p1⟩, c3, pd, ad, wd, fl, ⟨0x58, 0x10⟩⟩, none, []⟩


/-! Helper lemmas: reduction of the register file at the named addresses,
and the two bit-insertion facts used for field extraction and framing. -/

section RegSimp

variable (rs : Regs) (r : Reg16)

@[simp] lemma read_alsConf : rs.read _ALS_CONF = rs.alsConf := rfl
@[simp] lemma read_alsThdh : rs.read _ALS_THDH = rs.alsThdh := rfl
@[simp] lemma read_alsThdl : rs.read _ALS_THDL = rs.alsThdl := rfl
@[simp] lemma read_psConf12 : rs.read _PS_CONF12 = rs.psConf12 := rfl
@[simp] lemma read_psConf3ms : rs.read _PS_CONF3MS = rs.psConf3ms := rfl
@[simp] lemma read_psData : rs.read _PS_DATA = rs.psData := rfl
@[simp] lemma read_alsData : rs.read _ALS_DATA = rs.alsData := rfl
@[simp] lemma read_whiteData : rs.read _WHITE_DATA = rs.whiteData := rfl
@[simp] lemma read_intFlag : rs.read _INT_FLAG = rs.intFlag := rfl
@[simp] lemma read_devId : rs.read _ID = rs.devId := rfl

@[simp] lemma write_alsConf : rs.write _ALS_CONF r = { rs with alsConf := r } := rfl
@[simp] lemma write_alsThdh : rs.write _ALS_THDH r = { rs with alsThdh := r } := rfl
@[simp] lemma write_alsThdl : rs.write _ALS_THDL r = { rs with alsThdl := r } := rfl
@[simp] lemma write_psConf12 : rs.write _PS_CONF12 r = { rs with psConf12 := r } := rfl
@[simp] lemma write_psConf3ms : rs.write _PS_CONF3MS r = { rs with psConf3ms := r } := rfl

end RegSimp

lemma aux_lor_land (x y m : Nat) : (x ||| y) &&& m = (x &&& m) ||| (y &&& m) := by
  apply Nat.eq_of_testBit_eq
  intro i
  simp [Nat.testBit_and, Nat.testBit_or, Bool.and_or_distrib_right]

/-- Extracting a field after inserting into a cleared slot: the surrounding
bits vanish under the field mask when the clearing mask and the field mask
are disjoint. -/
lemma aux_extract (a s inv mask : Nat) (h1 : inv &&& mask = 0) :
    ((a &&& inv) ||| s) &&& mask = s &&& mask := by
  rw [aux_lor_land, Nat.land_assoc, h1, Nat.and_zero, Nat.zero_or]

/-- Framing: bits outside the field are untouched by a masked insertion. -/
lemma aux_frame (a s inv : Nat) (h2 : s &&& inv = 0) :
    ((a &&& inv) ||| s) &&& inv = a &&& inv := by
  rw [aux_lor_land, Nat.land_assoc, Nat.and_self, h2, Nat.or_zero]

/-- C7: every enumerated setter (prox_duty, prox_interrupt,
als_integration_time, als_persistence, prox_integration_time,
prox_persistence) given a value outside its enumeration raises ValueError
(the InvalidSetting error) before any bus transaction, returning the bus —
register file, fault injector and trace — completely unchanged. -/
theorem C7_invalid_setting_rejected_before_bus :
    (∀ b : Bus, ∀ v : Nat, v ∉ dictValues PS_DUTY →
      prox_duty_set v b = (.error .valueError, b)) ∧
    (∀ b : Bus, ∀ v : Nat, v ∉ dictValues PS_INT →
      prox_interrupt_set v b = (.error .valueError, b)) ∧
    (∀ b : Bus, ∀ v : Nat, v ∉ dictValues ALS_IT →
      als_integration_time_set v b = (.error .valueError, b)) ∧
    (∀ b : Bus, ∀ v : Nat, v ∉ dictValues ALS_PERS →
      als_persistence_set v b = (.error .valueError, b)) ∧
    (∀ b : Bus, ∀ v : Nat, v ∉ dictValues PS_IT →
      prox_integration_time_set v b = (.error .valueError, b)) ∧
    (∀ b : Bus, ∀ v : Nat, v ∉ dictValues PS_PERS →
      prox_persistence_set v b = (.error .valueError, b)) :=
  ⟨fun b v hv => by simp [prox_duty_set, hv],
   fun b v hv => by simp [prox_interrupt_set, hv],
   fun b v hv => by simp [als_integration_time_set, hv],
   fun b v hv => by simp [als_persistence_set, hv],
   fun b v hv => by simp [prox_integration_time_set, hv],
   fun b v hv => by simp [prox_persistence_set, hv]⟩

/-- C7 witness: the spec's own example, proximity interrupt mode 7, and the
value 7 for each of the other five enumerated setters, at the sample bus. -/
theorem C7_invalid_setting_witness :
    prox_duty_set 7 sampleBus = (.error .valueError, sampleBus) ∧
    prox_interrupt_set 7 sampleBus = (.error .valueError, sampleBus) ∧
    als_integration_time_set 7 sampleBus = (.error .valueError, sampleBus) ∧
    als_persistence_set 7 sampleBus = (.error .valueError, sampleBus) ∧
    prox_integration_time_set 7 sampleBus = (.error .valueError, sampleBus) ∧
    prox_persistence_set 7 sampleBus = (.error .valueError, sampleBus) :=
  ⟨C7_invalid_setting_rejected_before_bus.1 sampleBus 7 (by decide),
   C7_invalid_setting_rejected_before_bus.2.1 sampleBus 7 (by decide),
   C7_invalid_setting_rejected_before_bus.2.2.1 sampleBus 7 (by decide),
   C7_invalid_setting_rejected_before_bus.2.2.2.1 sampleBus 7 (by decide),
   C7_invalid_setting_rejected_before_bus.2.2.2.2.1 sampleBus 7 (by decide),
   C7_invalid_setting_rejected_before_bus.2.2.2.2.2 sampleBus 7 (by decide)⟩

/-- C5: for every enumerated field and every legal raw value v of its
enumeration, writing v through the setter and then reading through the
getter on the resulting register state returns the canonical name of v
(the round-trip law), for any prior register content. -/
theorem C5_enumerated_round_trip :
    (∀ b : Bus, b.failAfter = none → ∀ v ∈ dictValues PS_DUTY,
      (prox_duty_get (prox_duty_set v b).2).1 = .ok (reverseGet PS_DUTY v)) ∧
    (∀ b : Bus, b.failAfter = none → ∀ v ∈ dictValues PS_INT,
      (prox_interrupt_get (prox_interrupt_set v b).2).1 = .ok (reverseGet PS_INT v)) ∧
    (∀ b : Bus, b.failAfter = none → ∀ v ∈ dictValues ALS_IT,
      (als_integration_time_get (als_integration_time_set v b).2).1 =
        .ok (reverseGet ALS_IT v)) ∧
    (∀ b : Bus, b.failAfter = none → ∀ v ∈ dictValues ALS_PERS,
      (als_persistence_get (als_persistence_set v b).2).1 =
        .ok (reverseGet ALS_PERS v)) ∧
    (∀ b : Bus, b.failAfter = none → ∀ v ∈ dictValues PS_IT,
      (prox_integration_time_get (prox_integration_time_set v b).2).1 =
        .ok (reverseGet PS_IT v)) ∧
    (∀ b : Bus, b.failAfter = none → ∀ v ∈ dictValues PS_PERS,
      (prox_persistence_get (prox_persistence_set v b).2).1 =
        .ok (reverseGet PS_PERS v)) := by
  refine ⟨fun b hf v hv => ?_, fun b hf v hv => ?_, fun b hf v hv => ?_,
    fun b hf v hv => ?_, fun b hf v hv => ?_, fun b hf v hv => ?_⟩
  · simp [prox_duty_set, prox_duty_get, busRead2, busWrite2, busAttempt, hf, hv,
      _PROX_DUTY_MASK]
    have hx := hv
    simp [dictValues, PS_DUTY] at hx
    obtain rfl | rfl | rfl | rfl := hx <;>
      rw [aux_extract _ _ 63 192 (by decide)] <;> decide
  · simp [prox_interrupt_set, prox_interrupt_get, busRead2, busWrite2,
      busAttempt, hf, hv, _PROX_INTERRUPT_MASK]
    have hx := hv
    simp [dictValues, PS_INT] at hx
    obtain rfl | rfl | rfl | rfl := hx <;>
      rw [aux_extract _ _ 252 3 (by decide)] <;> decide
  · simp [als_integration_time_set, als_integration_time_get, busRead2,
      busWrite2, busAttempt, hf, hv, _ALS_INTEGRATION_TIME_MASK]
    have hx := hv
    simp [dictValues, ALS_IT] at hx
    obtain rfl | rfl | rfl | rfl := hx <;>
      rw [aux_extract _ _ 63 192 (by decide)] <;> decide
  · simp [als_persistence_set, als_persistence_get, busRead2, busWrite2,
      busAttempt, hf, hv, _ALS_PERSISTENCE_MASK]
    have hx := hv
    simp [dictValues, ALS_PERS] at hx
    obtain rfl | rfl | rfl | rfl := hx <;>
      rw [aux_extract _ _ 243 12 (by decide)] <;> decide
  · simp [prox_integration_time_set, prox_integration_time_get, busRead2,
      busWrite2, busAttempt, hf, hv, _PROX_INTEGRATION_TIME_MASK]
    have hx := hv
    simp [dictValues, PS_IT] at hx
    obtain rfl | rfl | rfl | rfl | rfl | rfl := hx <;>
      rw [aux_extract _ _ 241 14 (by decide)] <;> decide
  · simp [prox_persistence_set, prox_persistence_get, busRead2, busWrite2,
      busAttempt, hf, hv, _PROX_PERSISTENCE_MASK]
    have hx := hv
    simp [dictValues, PS_PERS] at hx
    obtain rfl | rfl | rfl | rfl := hx <;>
      rw [aux_extract _ _ 207 48 (by decide)] <;> decide

/-- C5 witness: one legal value per enumerated field at the sample bus. -/
theorem C5_round_trip_witness :
    (prox_duty_get (prox_duty_set 1 sampleBus).2).1 = .ok (reverseGet PS_DUTY 1) ∧
    (prox_interrupt_get (prox_interrupt_set 3 sampleBus).2).1 =
      .ok (reverseGet PS_INT 3) ∧
    (als_integration_time_get (als_integration_time_set 2 sampleBus).2).1 =
      .ok (reverseGet ALS_IT 2) ∧
    (als_persistence_get (als_persistence_set 1 sampleBus).2).1 =
      .ok (reverseGet ALS_PERS 1) ∧
    (prox_integration_time_get (prox_integration_time_set 5 sampleBus).2).1 =
      .ok (reverseGet PS_IT 5) ∧
    (prox_persistence_get (prox_persistence_set 2 sampleBus).2).1 =
      .ok (reverseGet PS_PERS 2) :=
  ⟨C5_enumerated_round_trip.1 sampleBus rfl 1 (by decide),
   C5_enumerated_round_trip.2.1 sampleBus rfl 3 (by decide),
   C5_enumerated_round_trip.2.2.1 sampleBus rfl 2 (by decide),
   C5_enumerated_round_trip.2.2.2.1 sampleBus rfl 1 (by decide),
   C5_enumerated_round_trip.2.2.2.2.1 sampleBus rfl 5 (by decide),
   C5_enumerated_round_trip.2.2.2.2.2 sampleBus rfl 2 (by decide)⟩

/-- C6: every enumerated-field setter, applied with a legal value to any
prior two-byte register content, changes the target register only inside
the field's bit mask: the other byte of the register is returned exactly as
read, and the bits of the modified byte outside the mask keep their
pre-write values. -/
theorem C6_setter_frame :
    (∀ b : Bus, b.failAfter = none → ∀ v ∈ dictValues PS_DUTY,
      (prox_duty_set v b).2.regs.psConf12.b1 = b.regs.psConf12.b1 ∧
      (prox_duty_set v b).2.regs.psConf12.b0 &&& (0xFF ^^^ _PROX_DUTY_MASK) =
        b.regs.psConf12.b0 &&& (0xFF ^^^ _PROX_DUTY_MASK)) ∧
    (∀ b : Bus, b.failAfter = none → ∀ v ∈ dictValues PS_INT,
      (prox_interrupt_set v b).2.regs.psConf12.b0 = b.regs.psConf12.b0 ∧
      (prox_interrupt_set v b).2.regs.psConf12.b1 &&& (0xFF ^^^ _PROX_INTERRUPT_MASK) =
        b.regs.psConf12.b1 &&& (0xFF ^^^ _PROX_INTERRUPT_MASK)) ∧
    (∀ b : Bus, b.failAfter = none → ∀ v ∈ dictValues ALS_IT,
      (als_integration_time_set v b).2.regs.alsConf.b1 = b.regs.alsConf.b1 ∧
      (als_integration_time_set v b).2.regs.alsConf.b0 &&&
          (0xFF ^^^ _ALS_INTEGRATION_TIME_MASK) =
        b.regs.alsConf.b0 &&& (0xFF ^^^ _ALS_INTEGRATION_TIME_MASK)) ∧
    (∀ b : Bus, b.failAfter = none → ∀ v ∈ dictValues ALS_PERS,
      (als_persistence_set v b).2.regs.alsConf.b1 = b.regs.alsConf.b1 ∧
      (als_persistence_set v b).2.regs.alsConf.b0 &&&
          (0xFF ^^^ _ALS_PERSISTENCE_MASK) =
        b.regs.alsConf.b0 &&& (0xFF ^^^ _ALS_PERSISTENCE_MASK)) ∧
    (∀ b : Bus, b.failAfter = none → ∀ v ∈ dictValues PS_IT,
      (prox_integration_time_set v b).2.regs.psConf12.b1 = b.regs.psConf12.b1 ∧
      (prox_integration_time_set v b).2.regs.psConf12.b0 &&&
          (0xFF ^^^ _PROX_INTEGRATION_TIME_MASK) =
        b.regs.psConf12.b0 &&& (0xFF ^^^ _PROX_INTEGRATION_TIME_MASK)) ∧
    (∀ b : Bus, b.failAfter = none → ∀ v ∈ dictValues PS_PERS,
      (prox_persistence_set v b).2.regs.psConf12.b1 = b.regs.psConf12.b1 ∧
      (prox_persistence_set v b).2.regs.psConf12.b0 &&&
          (0xFF ^^^ _PROX_PERSISTENCE_MASK) =
        b.regs.psConf12.b0 &&& (0xFF ^^^ _PROX_PERSISTENCE_MASK)) := by
  refine ⟨fun b hf v hv => ?_, fun b hf v hv => ?_, fun b hf v hv => ?_,
    fun b hf v hv => ?_, fun b hf v hv => ?_, fun b hf v hv => ?_⟩
  · simp [prox_duty_set, busRead2, busWrite2, busAttempt, hf, hv, _PROX_DUTY_MASK]
    have hx := hv
    simp [dictValues, PS_DUTY] at hx
    obtain rfl | rfl | rfl | rfl := hx <;> rw [aux_frame _ _ 63 (by decide)]
  · simp [prox_interrupt_set, busRead2, busWrite2, busAttempt, hf, hv,
      _PROX_INTERRUPT_MASK]
    have hx := hv
    simp [dictValues, PS_INT] at hx
    obtain rfl | rfl | rfl | rfl := hx <;> rw [aux_frame _ _ 252 (by decide)]
  · simp [als_integration_time_set, busRead2, busWrite2, busAttempt, hf, hv,
      _ALS_INTEGRATION_TIME_MASK]
    have hx := hv
    simp [dictValues, ALS_IT] at hx
    obtain rfl | rfl | rfl | rfl := hx <;> rw [aux_frame _ _ 63 (by decide)]
  · simp [als_persistence_set, busRead2, busWrite2, busAttempt, hf, hv,
      _ALS_PERSISTENCE_MASK]
    have hx := hv
    simp [dictValues, ALS_PERS] at hx
    obtain rfl | rfl | rfl | rfl := hx <;> rw [aux_frame _ _ 243 (by decide)]
  · simp [prox_integration_time_set, busRead2, busWrite2, busAttempt, hf, hv,
      _PROX_INTEGRATION_TIME_MASK]
    have hx := hv
    simp [dictValues, PS_IT] at hx
    obtain rfl | rfl | rfl | rfl | rfl | rfl := hx <;>
      rw [aux_frame _ _ 241 (by decide)]
  · simp [prox_persistence_set, busRead2, busWrite2, busAttempt, hf, hv,
      _PROX_PERSISTENCE_MASK]
    have hx := hv
    simp [dictValues, PS_PERS] at hx
    obtain rfl | rfl | rfl | rfl := hx <;> rw [aux_frame _ _ 207 (by decide)]

/-- C6 witness: one legal value per setter at the sample bus, whose
configuration registers hold nonzero bits on both bytes. -/
theorem C6_setter_frame_witness :
    ((prox_duty_set 1 sampleBus).2.regs.psConf12.b1 = sampleBus.regs.psConf12.b1 ∧
      (prox_duty_set 1 sampleBus).2.regs.psConf12.b0 &&& (0xFF ^^^ _PROX_DUTY_MASK) =
        sampleBus.regs.psConf12.b0 &&& (0xFF ^^^ _PROX_DUTY_MASK)) ∧
    ((prox_interrupt_set 3 sampleBus).2.regs.psConf12.b0 =
        sampleBus.regs.psConf12.b0 ∧
      (prox_interrupt_set 3 sampleBus).2.regs.psConf12.b1 &&&
          (0xFF ^^^ _PROX_INTERRUPT_MASK) =
        sampleBus.regs.psConf12.b1 &&& (0xFF ^^^ _PROX_INTERRUPT_MASK)) ∧
    ((als_integration_time_set 2 sampleBus).2.regs.alsConf.b1 =
        sampleBus.regs.alsConf.b1 ∧
      (als_integration_time_set 2 sampleBus).2.regs.alsConf.b0 &&&
          (0xFF ^^^ _ALS_INTEGRATION_TIME_MASK) =
        sampleBus.regs.alsConf.b0 &&& (0xFF ^^^ _ALS_INTEGRATION_TIME_MASK)) ∧
    ((prox_persistence_set 2 sampleBus).2.regs.psConf12.b1 =
        sampleBus.regs.psConf12.b1 ∧
      (prox_persistence_set 2 sampleBus).2.regs.psConf12.b0 &&&
          (0xFF ^^^ _PROX_PERSISTENCE_MASK) =
        sampleBus.regs.psConf12.b0 &&& (0xFF ^^^ _PROX_PERSISTENCE_MASK)) :=
  ⟨C6_setter_frame.1 sampleBus rfl 1 (by decide),
   C6_setter_frame.2.1 sampleBus rfl 3 (by decide),
   C6_setter_frame.2.2.1 sampleBus rfl 2 (by decide),
   C6_setter_frame.2.2.2.2.2 sampleBus rfl 2 (by decide)⟩

/-- C3: evaluation of the declared field layouts.  The class declares both
prox_shutdown and the unused _proximity_int_en as one-bit fields at bit 0 of
the PS config 1 and 2 register, so the spec's disjointness invariant fails
for exactly that pair: some pair of distinct declared fields on a shared
register overlaps, and every overlapping pair of distinct fields involves
prox_shutdown and _proximity_int_en. -/
theorem C3_overlap_evaluation :
    (∃ f ∈ vcnlFieldSpecs, ∃ g ∈ vcnlFieldSpecs,
      f.name ≠ g.name ∧ f.overlaps g = true) ∧
    (∀ f ∈ vcnlFieldSpecs, ∀ g ∈ vcnlFieldSpecs, f.name ≠ g.name →
      f.overlaps g = true →
      ((f.name = "prox_shutdown" ∨ f.name = "_proximity_int_en") ∧
       (g.name = "prox_shutdown" ∨ g.name = "_proximity_int_en"))) := by
  decide

/-- C4 counterexample: against the spec-modelled interrupt_flags decoder,
the raw register value 0xFF10 has upper byte 0xFF, so all six flags decode
true; the claim's expected decode with only ALS-high set is false there. -/
theorem C4_counterexample :
    ¬ (interrupt_flags 0xFF10 =
        { proxUpflag := false, proxSpflag := false, alsLow := false,
          alsHigh := true, proxClose := false, proxAway := false }) := by
  decide

/-- C4 amended: interrupt_flags consults only the upper 8 bits of the
16-bit interrupt-flag register (any two raw values sharing an upper byte
decode identically), and the raw value 0x10FF — wire bytes 0xFF then 0x10,
upper byte 0x10 — decodes ALS-high true and the other five flags false. -/
theorem C4_interrupt_flags_high_byte :
    (∀ hi lo lo2 : Nat, lo < 256 → lo2 < 256 →
      interrupt_flags (lo + 256 * hi) = interrupt_flags (lo2 + 256 * hi)) ∧
    interrupt_flags 0x10FF =
      { proxUpflag := false, proxSpflag := false, alsLow := false,
        alsHigh := true, proxClose := false, proxAway := false } := by
  constructor
  · intro hi lo lo2 hlo hlo2
    have h : ∀ x : Nat, x < 256 → (x + 256 * hi) >>> 8 = hi := by
      intro x hx
      rw [Nat.shiftRight_eq_div_pow]
      norm_num
      rw [Nat.add_mul_div_left _ _ (by norm_num : (0:Nat) < 256),
        Nat.div_eq_of_lt hx, Nat.zero_add]
    simp [interrupt_flags, h lo hlo, h lo2 hlo2]
  · decide

/-- C4 witness: the first part applied at upper byte 0x10 with low bytes
0xFF and 0x00 (so 0xFF + 256 * 0x10 is the amended test value 0x10FF),
together with the concrete decode. -/
theorem C4_interrupt_flags_witness :
    interrupt_flags (0xFF + 256 * 0x10) = interrupt_flags (0x00 + 256 * 0x10) ∧
    interrupt_flags 0x10FF =
      { proxUpflag := false, proxSpflag := false, alsLow := false,
        alsHigh := true, proxClose := false, proxAway := false } :=
  ⟨C4_interrupt_flags_high_byte.1 0x10 0xFF 0x00 (by decide) (by decide),
   C4_interrupt_flags_high_byte.2⟩

/-- C8: the identity check of open.  Against any identity value other than
0x1058 the constructor fails with the Device ID mismatch RuntimeError,
raised on the first mismatched read with no retry, and the identity register
is read exactly once; when the check passes (shown on the sample device,
identity 0x1058) the identity register is likewise read exactly once over
the whole constructor run (the two-iteration loop breaks on first match and
raises on first mismatch, so no second read ever happens). -/
theorem C8_identity_checked_once (d0 d1 : Nat)
    (a th tl pc c3 pd ad wd fl : Reg16) :
    (d0 + 256 * d1 ≠ 0x1058 →
      (vcnl4200_open ⟨⟨a, th, tl, pc, c3, pd, ad, wd, fl, ⟨d0, d1⟩⟩,
          none, []⟩).1 = .error .idMismatch ∧
      countReads _ID (vcnl4200_open ⟨⟨a, th, tl, pc, c3, pd, ad, wd, fl,
          ⟨d0, d1⟩⟩, none, []⟩).2.trace = 1) ∧
    ((vcnl4200_open sampleBus).1 = .ok () ∧
      countReads _ID (vcnl4200_open sampleBus).2.trace = 1) := by
  constructor
  · intro h
    constructor <;>
      simp [vcnl4200_open, idCheckLoop, busRead2, busAttempt, Regs.read,
        Reg16.val, _DEVICE_ID, _ID, _ALS_CONF, _ALS_THDH, _ALS_THDL,
        _PS_CONF12, _PS_CONF3MS, _PS_DATA, _ALS_DATA, _WHITE_DATA, _INT_FLAG,
        h, countReads]
  · decide

/-- C8 witness: identity 0x0001 (bytes 1 then 0) fails with the mismatch
error after exactly one identity read, and the passing sample device also
reads the identity register exactly once. -/
theorem C8_identity_witness :
    ((vcnl4200_open ⟨⟨⟨0xA5, 0x5A⟩, ⟨1, 2⟩, ⟨3, 4⟩, ⟨0x6C, 0xC6⟩, ⟨5, 6⟩,
        ⟨7, 8⟩, ⟨9, 10⟩, ⟨11, 12⟩, ⟨13, 14⟩, ⟨1, 0⟩⟩, none, []⟩).1 =
      .error .idMismatch ∧
      countReads _ID (vcnl4200_open ⟨⟨⟨0xA5, 0x5A⟩, ⟨1, 2⟩, ⟨3, 4⟩,
          ⟨0x6C, 0xC6⟩, ⟨5, 6⟩, ⟨7, 8⟩, ⟨9, 10⟩, ⟨11, 12⟩, ⟨13, 14⟩,
          ⟨1, 0⟩⟩, none, []⟩).2.trace = 1) ∧
    ((vcnl4200_open sampleBus).1 = .ok () ∧
      countReads _ID (vcnl4200_open sampleBus).2.trace = 1) :=
  ⟨(C8_identity_checked_once 1 0 ⟨0xA5, 0x5A⟩ ⟨1, 2⟩ ⟨3, 4⟩ ⟨0x6C, 0xC6⟩
      ⟨5, 6⟩ ⟨7, 8⟩ ⟨9, 10⟩ ⟨11, 12⟩ ⟨13, 14⟩).1 (by decide),
   (C8_identity_checked_once 1 0 ⟨0xA5, 0x5A⟩ ⟨1, 2⟩ ⟨3, 4⟩ ⟨0x6C, 0xC6⟩
      ⟨5, 6⟩ ⟨7, 8⟩ ⟨9, 10⟩ ⟨11, 12⟩ ⟨13, 14⟩).2⟩

/-- C10: for every register content the prox_interrupt getter answers one
of the four mode names DISABLE, CLOSE, AWAY, BOTH — the Unknown branch of
its reverse lookup is unreachable because the two-bit mask only yields raw
values 0 to 3, all present in PS_INT — while prox_integration_time, whose
three-bit mask admits the unmapped raw values 6 and 7, does answer Unknown
(shown at low byte 0x0C, raw integration value 6). -/
theorem C10_prox_interrupt_never_unknown (b : Bus) (hf : b.failAfter = none) :
    (∃ s, (prox_interrupt_get b).1 = .ok s ∧
      s ∈ [("DISABLE" : String), "CLOSE", "AWAY", "BOTH"]) ∧
    (prox_integration_time_get ⟨{ sampleRegs with psConf12 := ⟨0x0C, 0⟩ },
        none, []⟩).1 = .ok ("Unknown") := by
  constructor
  · simp only [prox_interrupt_get, busRead2, busAttempt, hf, read_psConf12,
      _PROX_INTERRUPT_MASK]
    obtain ⟨m, hmle, hmeq⟩ :
        ∃ m, m ≤ 3 ∧ b.regs.psConf12.b1 &&& 3 = m := ⟨_, Nat.and_le_right, rfl⟩
    rw [hmeq]
    interval_cases m <;> exact ⟨_, rfl, by decide⟩
  · rfl

/-- C10 witness: the getter at the sample bus (PS config byte1 0xC6, masked
mode 2) answers AWAY, and the Unknown contrast value. -/
theorem C10_prox_interrupt_witness :
    (∃ s, (prox_interrupt_get sampleBus).1 = .ok s ∧
      s ∈ [("DISABLE" : String), "CLOSE", "AWAY", "BOTH"]) ∧
    (prox_integration_time_get ⟨{ sampleRegs with psConf12 := ⟨0x0C, 0⟩ },
        none, []⟩).1 = .ok ("Unknown") :=
  C10_prox_interrupt_never_unknown sampleBus rfl

/-- C9: set_interrupt and trigger_prox swallow transport failures — a
transient OSError on any of their bus transactions yields the return value
false instead of an exception, and they return true when every write
succeeds — while every other accessor of the driver propagates a transport
failure as the OSError itself. -/
theorem C9_swallow_and_report_false :
    (∀ b : Bus, ∀ e w : Bool, ∀ k, k < 4 → b.failAfter = some k →
      (set_interrupt e w b).1 = .ok false) ∧
    (∀ b : Bus, ∀ e w : Bool, b.failAfter = none →
      (set_interrupt e w b).1 = .ok true) ∧
    (∀ b : Bus, ∀ k, k < 2 → b.failAfter = some k →
      (trigger_prox b).1 = .ok false) ∧
    (∀ b : Bus, b.failAfter = none → (trigger_prox b).1 = .ok true) ∧
    (∀ b : Bus, b.failAfter = some 0 →
      (als_shutdown_set true b).1 = .error .osError ∧
      (als_shutdown_get b).1 = .error .osError ∧
      (als_int_en_get b).1 = .error .osError ∧
      (als_int_switch_get b).1 = .error .osError ∧
      (prox_shutdown_set true b).1 = .error .osError ∧
      (prox_shutdown_get b).1 = .error .osError ∧
      (als_low_threshold_set 0 b).1 = .error .osError ∧
      (als_low_threshold_get b).1 = .error .osError ∧
      (als_high_threshold_set 0xFFFF b).1 = .error .osError ∧
      (als_high_threshold_get b).1 = .error .osError ∧
      (proximity_get b).1 = .error .osError ∧
      (lux_get b).1 = .error .osError ∧
      (white_light_get b).1 = .error .osError ∧
      (prox_interrupt_set 0 b).1 = .error .osError ∧
      (prox_interrupt_get b).1 = .error .osError ∧
      (prox_duty_set 0 b).1 = .error .osError ∧
      (prox_duty_get b).1 = .error .osError ∧
      (prox_sun_cancellation_set true b).1 = .error .osError ∧
      (prox_sun_cancellation_get b).1 = .error .osError ∧
      (prox_sunlight_double_immunity_set true b).1 = .error .osError ∧
      (prox_sunlight_double_immunity_get b).1 = .error .osError ∧
      (prox_active_force_set true b).1 = .error .osError ∧
      (prox_active_force_get b).1 = .error .osError ∧
      (prox_smart_persistence_set true b).1 = .error .osError ∧
      (prox_smart_persistence_get b).1 = .error .osError ∧
      (als_integration_time_set 0 b).1 = .error .osError ∧
      (als_integration_time_get b).1 = .error .osError ∧
      (als_persistence_set 0 b).1 = .error .osError ∧
      (als_persistence_get b).1 = .error .osError ∧
      (prox_integration_time_set 0 b).1 = .error .osError ∧
      (prox_integration_time_get b).1 = .error .osError ∧
      (prox_persistence_set 0 b).1 = .error .osError ∧
      (prox_persistence_get b).1 = .error .osError) := by
  refine ⟨?_, ?_, ?_, ?_, ?_⟩
  · intro b e w k hk hf
    interval_cases k <;>
      simp [set_interrupt, als_int_en_set, als_int_switch_set, busRead1,
        busWrite1, busAttempt, hf]
  · intro b e w hf
    simp [set_interrupt, als_int_en_set, als_int_switch_set, busRead1,
      busWrite1, busAttempt, hf]
  · intro b k hk hf
    interval_cases k <;>
      simp [trigger_prox, prox_trigger_set, busRead1, busWrite1, busAttempt, hf]
  · intro b hf
    simp [trigger_prox, prox_trigger_set, busRead1, busWrite1, busAttempt, hf]
  · intro b hf
    and_intros <;>
      simp [als_shutdown_set, als_shutdown_get, als_int_en_get,
        als_int_switch_get, prox_shutdown_set, prox_shutdown_get,
        als_low_threshold_set, als_low_threshold_get, als_high_threshold_set,
        als_high_threshold_get, proximity_get, lux_get, white_light_get,
        prox_interrupt_set, prox_interrupt_get, prox_duty_set, prox_duty_get,
        prox_sun_cancellation_set, prox_sun_cancellation_get,
        prox_sunlight_double_immunity_set, prox_sunlight_double_immunity_get,
        prox_active_force_set, prox_active_force_get,
        prox_smart_persistence_set, prox_smart_persistence_get,
        als_integration_time_set, als_integration_time_get,
        als_persistence_set, als_persistence_get, prox_integration_time_set,
        prox_integration_time_get, prox_persistence_set, prox_persistence_get,
        busRead1, busRead2, busWrite1, busWrite2, busAttempt, hf, dictValues,
        PS_INT, PS_DUTY, ALS_IT, ALS_PERS, PS_IT, PS_PERS]

/-- C9 witness: concrete fault positions on the sample device — each bus
transaction position of set_interrupt and trigger_prox swallowed to false,
clean runs returning true, and a representative propagating accessor. -/
theorem C9_swallow_witness :
    (set_interrupt true false (faultBus 0)).1 = .ok false ∧
    (set_interrupt true false (faultBus 3)).1 = .ok false ∧
    (set_interrupt true false sampleBus).1 = .ok true ∧
    (trigger_prox (faultBus 1)).1 = .ok false ∧
    (trigger_prox sampleBus).1 = .ok true ∧
    (als_shutdown_set true (faultBus 0)).1 = .error .osError ∧
    (lux_get (faultBus 0)).1 = .error .osError :=
  ⟨C9_swallow_and_report_false.1 (faultBus 0) true false 0 (by decide) rfl,
   C9_swallow_and_report_false.1 (faultBus 3) true false 3 (by decide) rfl,
   C9_swallow_and_report_false.2.1 sampleBus true false rfl,
   C9_swallow_and_report_false.2.2.1 (faultBus 1) 1 (by decide) rfl,
   C9_swallow_and_report_false.2.2.2.1 sampleBus rfl,
   (C9_swallow_and_report_false.2.2.2.2 (faultBus 0) rfl).1,
   (C9_swallow_and_report_false.2.2.2.2 (faultBus 0) rfl).2.2.2.2.2.2.2.2.2.2.2.1⟩

/-- C2 counterexample: a transport error during step 6 of the
initialization sequence does not abort open.  On the zeroed sample device
(identity 0x1058) the ninth bus transaction is the first transaction of
step 6 (the read half of the ALS interrupt enable read-modify-write);
injecting the fault there still yields a successful open — a handle is
returned — and the spent injector shows the OSError really fired during the
run, so open neither wrapped nor re-raised it. -/
theorem C2_counterexample_step6_fault_swallowed :
    (vcnl4200_open ⟨zeroRegs, some 9, []⟩).1 = .ok () ∧
    (vcnl4200_open ⟨zeroRegs, some 9, []⟩).2.failAfter = none := by
  decide

/-- C2 amended: on the zeroed sample device the constructor issues
transactions 0 (identity read) through 20; a transient transport fault at
transaction k+1 belonging to steps 1-5 or 7-10 (k+1 in 1..8 or 13..20)
makes open fail with the Failed-to-initialize RuntimeError wrapping the
OSError, and no handle is returned; a fault at a transaction of step 6
(k+1 in 9..12) is swallowed inside set_interrupt, whose False return the
constructor ignores, so initialization continues and a handle is returned. -/
theorem C2_init_failure_wrapping :
    ∀ k, k < 20 →
      (vcnl4200_open ⟨zeroRegs, some (k + 1), []⟩).1 =
        (if 9 ≤ k + 1 ∧ k + 1 ≤ 12 then .ok ()
         else .error (.initFailed .osError)) := by
  decide

/-- C2 witness: a fault in step 2 and one in step 8 are wrapped as the
initialization failure carrying the OSError; a fault in step 6 is not. -/
theorem C2_init_failure_witness :
    (vcnl4200_open ⟨zeroRegs, some 2, []⟩).1 = .error (.initFailed .osError) ∧
    (vcnl4200_open ⟨zeroRegs, some 15, []⟩).1 = .error (.initFailed .osError) ∧
    (vcnl4200_open ⟨zeroRegs, some 10, []⟩).1 = .ok () :=
  ⟨(C2_init_failure_wrapping 1 (by decide)).trans (by decide),
   (C2_init_failure_wrapping 14 (by decide)).trans (by decide),
   (C2_init_failure_wrapping 9 (by decide)).trans (by decide)⟩

lemma aux_als_conf_final (a : Nat) :
    (((((a &&& 254 ||| 0) &&& 63 ||| 0) &&& 243 ||| 0) &&& 253 ||| 0)
        &&& 223 ||| 0) = a &&& 16 := by
  rw [Nat.or_zero, Nat.or_zero, Nat.or_zero, Nat.or_zero, Nat.or_zero]
  rw [Nat.land_assoc, Nat.land_assoc, Nat.land_assoc, Nat.land_assoc]
  rw [show (254 &&& (63 &&& (243 &&& (253 &&& 223))) : Nat) = 16 from by decide]

lemma aux_ps_conf_final (p : Nat) :
    ((((p &&& 63 ||| 0) &&& 254) &&& 241 ||| 0) &&& 207 ||| 0) = 0 := by
  rw [Nat.or_zero, Nat.or_zero, Nat.or_zero]
  rw [Nat.land_assoc, Nat.land_assoc, Nat.land_assoc]
  rw [show (63 &&& (254 &&& (241 &&& 207)) : Nat) = 0 from by decide,
    Nat.and_zero]

lemma aux_sixteen (m : Nat) (h : 16 &&& m = 0) (a : Nat) :
    (a &&& 16) &&& m = 0 := by
  rw [Nat.land_assoc, h, Nat.and_zero]

set_option maxRecDepth 8000 in
set_option maxHeartbeats 1000000 in
lemma aux_open_raw_state (a0 a1 p0 p1 : Nat) (th tl c3 pd ad wd fl : Reg16) :
    ∃ tr, (vcnl4200_open (deviceBus a0 a1 p0 p1 th tl c3 pd ad wd fl)).2 =
      ⟨⟨⟨(((((a0 &&& 254 ||| 0) &&& 63 ||| 0) &&& 243 ||| 0) &&& 253 ||| 0)
            &&& 223 ||| 0), a1⟩,
        ⟨255, 255⟩, ⟨0, 0⟩,
        ⟨((((p0 &&& 63 ||| 0) &&& 254) &&& 241 ||| 0) &&& 207 ||| 0), p1⟩,
        c3, pd, ad, wd, fl, ⟨0x58, 0x10⟩⟩, none, tr⟩ :=
  ⟨_, rfl⟩

lemma aux_open_state (a0 a1 p0 p1 : Nat) (th tl c3 pd ad wd fl : Reg16) :
    ∃ tr, (vcnl4200_open (deviceBus a0 a1 p0 p1 th tl c3 pd ad wd fl)).2 =
      ⟨⟨⟨a0 &&& 16, a1⟩, ⟨255, 255⟩, ⟨0, 0⟩, ⟨0, p1⟩,
        c3, pd, ad, wd, fl, ⟨0x58, 0x10⟩⟩, none, tr⟩ := by
  obtain ⟨tr, h⟩ := aux_open_raw_state a0 a1 p0 p1 th tl c3 pd ad wd fl
  rw [aux_als_conf_final, aux_ps_conf_final] at h
  exact ⟨tr, h⟩

set_option maxRecDepth 8000 in
set_option maxHeartbeats 1000000 in
lemma aux_open_returns_handle (a0 a1 p0 p1 : Nat)
    (th tl c3 pd ad wd fl : Reg16) :
    (vcnl4200_open (deviceBus a0 a1 p0 p1 th tl c3 pd ad wd fl)).1 =
      .ok () := rfl

set_option maxRecDepth 8000 in
lemma aux_open_write_order :
    writeAddrs (vcnl4200_open ⟨zeroRegs, none, []⟩).2.trace =
      [_ALS_CONF, _ALS_CONF, _ALS_CONF, _ALS_THDL, _ALS_THDH, _ALS_CONF,
       _ALS_CONF, _PS_CONF12, _PS_CONF12, _PS_CONF12, _PS_CONF12] := by
  decide

set_option maxRecDepth 8000 in
set_option maxHeartbeats 1000000 in
/-- C1: after the identity check succeeds the constructor runs the ten-step
initialization to completion and returns the handle; on the zeroed sample
device the register writes happen in exactly the source order — three
ALS-config writes (shutdown off, integration time, persistence), the low
then high threshold writes, two more ALS-config writes (interrupt enable
and channel), then four PS-config writes (duty, shutdown, integration time,
persistence); and for arbitrary prior register content the resulting state
reads back every specified value: ALS shutdown 0 (off), integration time
50MS (raw 0), persistence 1 (raw 0), low threshold 0, high threshold
0xFFFF, ALS interrupt enable 0 (disabled) with channel select 0
(non-white), proximity duty 1_160 (raw 0), proximity shutdown off,
proximity integration time 1T (raw 0), proximity persistence 1 (raw 0). -/
theorem C1_init_sequence (a0 a1 p0 p1 : Nat) (th tl c3 pd ad wd fl : Reg16) :
    (vcnl4200_open (deviceBus a0 a1 p0 p1 th tl c3 pd ad wd fl)).1 = .ok () ∧
    writeAddrs (vcnl4200_open ⟨zeroRegs, none, []⟩).2.trace =
      [_ALS_CONF, _ALS_CONF, _ALS_CONF, _ALS_THDL, _ALS_THDH, _ALS_CONF,
       _ALS_CONF, _PS_CONF12, _PS_CONF12, _PS_CONF12, _PS_CONF12] ∧
    (als_shutdown_get
      (vcnl4200_open (deviceBus a0 a1 p0 p1 th tl c3 pd ad wd fl)).2).1 =
      .ok 0 ∧
    (als_integration_time_get
      (vcnl4200_open (deviceBus a0 a1 p0 p1 th tl c3 pd ad wd fl)).2).1 =
      .ok ("50MS") ∧
    (als_persistence_get
      (vcnl4200_open (deviceBus a0 a1 p0 p1 th tl c3 pd ad wd fl)).2).1 =
      .ok ("1") ∧
    (als_low_threshold_get
      (vcnl4200_open (deviceBus a0 a1 p0 p1 th tl c3 pd ad wd fl)).2).1 =
      .ok 0 ∧
    (als_high_threshold_get
      (vcnl4200_open (deviceBus a0 a1 p0 p1 th tl c3 pd ad wd fl)).2).1 =
      .ok 0xFFFF ∧
    (als_int_en_get
      (vcnl4200_open (deviceBus a0 a1 p0 p1 th tl c3 pd ad wd fl)).2).1 =
      .ok 0 ∧
    (als_int_switch_get
      (vcnl4200_open (deviceBus a0 a1 p0 p1 th tl c3 pd ad wd fl)).2).1 =
      .ok 0 ∧
    (prox_duty_get
      (vcnl4200_open (deviceBus a0 a1 p0 p1 th tl c3 pd ad wd fl)).2).1 =
      .ok ("1_160") ∧
    (prox_shutdown_get
      (vcnl4200_open (deviceBus a0 a1 p0 p1 th tl c3 pd ad wd fl)).2).1 =
      .ok false ∧
    (prox_integration_time_get
      (vcnl4200_open (deviceBus a0 a1 p0 p1 th tl c3 pd ad wd fl)).2).1 =
      .ok ("1T") ∧
    (prox_persistence_get
      (vcnl4200_open (deviceBus a0 a1 p0 p1 th tl c3 pd ad wd fl)).2).1 =
      .ok ("1") := by
  obtain ⟨tr, hbus⟩ := aux_open_state a0 a1 p0 p1 th tl c3 pd ad wd fl
  refine ⟨aux_open_returns_handle a0 a1 p0 p1 th tl c3 pd ad wd fl,
    aux_open_write_order, ?_, ?_, ?_, ?_, ?_, ?_, ?_, ?_, ?_, ?_, ?_⟩ <;>
    rw [hbus]
  · simp [als_shutdown_get, busRead1, busAttempt, -Nat.and_one_is_mod,
      aux_sixteen 1 (by decide)]
  · simp [als_integration_time_get, busRead2, busAttempt,
      _ALS_INTEGRATION_TIME_MASK, aux_sixteen 192 (by decide),
      reverseGet, ALS_IT]
  · simp [als_persistence_get, busRead2, busAttempt, _ALS_PERSISTENCE_MASK,
      aux_sixteen 12 (by decide), reverseGet, ALS_PERS]
  · rfl
  · rw [show (0xFFFF : Nat) = Reg16.val ⟨255, 255⟩ from rfl]
    rfl
  · simp [als_int_en_get, busRead1, busAttempt, aux_sixteen 2 (by decide)]
  · simp [als_int_switch_get, busRead1, busAttempt, aux_sixteen 32 (by decide)]
  · simp [prox_duty_get, busRead2, busAttempt, _PROX_DUTY_MASK, reverseGet,
      PS_DUTY]
  · simp [prox_shutdown_get, busRead1, busAttempt, -Nat.and_one_is_mod]
  · simp [prox_integration_time_get, busRead2, busAttempt,
      _PROX_INTEGRATION_TIME_MASK, reverseGet, PS_IT]
  · simp [prox_persistence_get, busRead2, busAttempt, _PROX_PERSISTENCE_MASK,
      reverseGet, PS_PERS]
